import Mathlib

/-!
Shallow embedding of the trigger/event-reaction engine (`TriggersManager`,
`src/card-controller/triggers-manager.ts`) of the frigate-hass-card repository.

Modelling conventions:
* Times are natural numbers in milliseconds; `new Date()` at event-handling
  time is the explicit `t : Nat` argument, and `Date.getTime` is that number.
* A JavaScript `Map` is an insertion-ordered association list with unique
  keys: `Map.set` updates an existing key in place and appends a new key;
  `Map.delete` removes the entry.
* The `Timer` utility (`src/utils/timer`) is a single-shot cancellable
  timer.  A running timer is represented by its absolute expiry time; the
  source always stops a timer before dropping it from the map
  (`_deleteTimer`), so "entry removed from the map" coincides with
  "cancelled" and a timer can only fire while its entry is in the map.
* The lodash-es `throttle(f, 1000, { trailing: true })` call is modelled by
  the documented lodash semantics: `throttle` is `debounce` with
  `maxWait = wait` and, since the `leading` option is not given, the default
  `leading: true` stays in force.  The throttle state machine below mirrors
  lodash's `debounced` / `timerExpired` / `trailingEdge` logic for
  monotonically increasing clocks.
* The external collaborators (configuration store, view manager, camera
  store, interaction manager) are a read-only environment `Env` supplied at
  every entry point, mirroring that the source re-reads them on each call.
  The condition-state store is the one collaborator the engine also writes,
  so its `triggered` field is carried alongside the engine state in `Sys`.
* Side effects (view-navigation commands, condition-state writes, card
  update requests) are accumulated in an `Effect` trace.
-/

namespace FrigateCard

/-- Camera event as consumed by `TriggersManager.handleCameraEvent`
(the `CameraEvent` shape is reconstructed from its uses in the source:
`ev.cameraID`, `ev.type === 'end'`, `ev.fidelity === 'high'`, `ev.snapshot`,
`ev.clip`). -/
structure CameraEvent where
  cameraID : String
  type : String
  fidelity : String
  clip : Bool
  snapshot : Bool
deriving DecidableEq, Repr

/-- Model of `config.view.triggers.actions` (trigger policy actions). -/
structure TriggerActions where
  trigger : String
  untrigger : String
  interaction_mode : String
deriving DecidableEq, Repr

/-- Model of `config.view.triggers` (the trigger policy). -/
structure TriggersConfig where
  filter_selected_camera : Bool
  untrigger_seconds : Nat
  actions : TriggerActions
deriving DecidableEq, Repr

/-- The slice of `config.view` the engine reads: the trigger policy and the
configured default view name. -/
structure ViewConfig where
  triggers : TriggersConfig
  default : String
deriving DecidableEq, Repr

/-- The slice of the card configuration the engine reads. -/
structure CardConfig where
  view : ViewConfig
deriving DecidableEq, Repr

/-- Read-only snapshot of the external collaborators, re-read on every call:
`getConfigManager().getConfig()`, `getViewManager().getView()?.camera`,
`getCameraManager().getStore().getAllDependentCameras`, and
`getInteractionManager().hasInteraction()`. -/
structure Env where
  config : Option CardConfig
  viewCamera : Option String
  dependentCameras : String → List String
  hasInteraction : Bool

/-- Observable side effects commanded by the engine. -/
inductive Effect where
  | setViewByParameters (viewName : String) (cameraID : String)
  | setViewDefault (cameraID : Option String)
  | setConditionState (triggered : Option (Finset String))
  | cardUpdate
deriving DecidableEq

/-- State of the lodash throttle wrapper around `_triggerAction`
(`lastCallTime`, `lastInvokeTime`, `lastArgs`, `timerId` of lodash
`debounce`; the pending timer is represented by its absolute expiry). -/
structure ThrottleState where
  lastCallTime : Option Nat
  lastInvokeTime : Nat
  lastArgs : Option CameraEvent
  timerId : Option Nat
deriving DecidableEq, Repr

/-- The throttle window of `_throttledTriggerAction` (1000 ms). -/
def throttleWait : Nat := 1000

/-- Initial throttle state (lodash initialises `lastInvokeTime` to 0 and
leaves the other fields unset). -/
def initThrottle : ThrottleState :=
  { lastCallTime := none, lastInvokeTime := 0, lastArgs := none, timerId := none }

/-- lodash `shouldInvoke` for a monotone clock, with `maxing = true` and
`maxWait = wait` (the `timeSinceLastCall < 0` branch cannot arise). -/
def shouldInvoke (st : ThrottleState) (t : Nat) : Bool :=
  match st.lastCallTime with
  | none => true
  | some lastCall =>
      throttleWait ≤ t - lastCall || throttleWait ≤ t - st.lastInvokeTime

/-- lodash `debounced` (as configured by `throttle(_, 1000, {trailing: true})`):
called at time `t` with argument `a`; returns the new state and the list of
immediate invocations of the wrapped function. -/
def throttleCall (st : ThrottleState) (t : Nat) (a : CameraEvent) :
    ThrottleState × List (Nat × CameraEvent) :=
  let isInvoking := shouldInvoke st t
  let st1 := { st with lastArgs := some a, lastCallTime := some t }
  if isInvoking then
    -- `leadingEdge` when no timer is pending, else the `maxing` branch;
    -- both restart the timer, record the invoke time and invoke immediately.
    ({ st1 with lastInvokeTime := t, timerId := some (t + throttleWait),
                lastArgs := none }, [(t, a)])
  else if st1.timerId = none then
    ({ st1 with timerId := some (t + throttleWait) }, [])
  else
    (st1, [])

/-- lodash `timerExpired` running at time `t` (the pending timer's expiry):
either the trailing edge fires (invoking the latest pending argument, if
any) or the timer is re-armed for the remaining wait. -/
def throttleTimerExpired (st : ThrottleState) (t : Nat) :
    ThrottleState × List (Nat × CameraEvent) :=
  if shouldInvoke st t then
    match st.lastArgs with
    | some a =>
        ({ st with timerId := none, lastArgs := none, lastInvokeTime := t }, [(t, a)])
    | none => ({ st with timerId := none }, [])
  else
    let remaining :=
      min (throttleWait - (t - st.lastCallTime.getD 0))
          (throttleWait - (t - st.lastInvokeTime))
    ({ st with timerId := some (t + remaining) }, [])

/-- Fold of `throttleCall` over a list of timed calls, accumulating the
immediate invocations. -/
def throttleRun (st : ThrottleState) :
    List (Nat × CameraEvent) → ThrottleState × List (Nat × CameraEvent)
  | [] => (st, [])
  | c :: rest =>
      let step1 := throttleCall st c.1 c.2
      let step2 := throttleRun step1.1 rest
      (step2.1, step1.2 ++ step2.2)

/-- Mutable state of a `TriggersManager` instance: `_triggeredCameras`
(camera ↦ trigger timestamp), `_triggeredCameraTimers` (camera ↦ expiry of
its untrigger `Timer`), and the shared throttle state. -/
structure TriggersState where
  triggeredCameras : List (String × Nat)
  triggeredCameraTimers : List (String × Nat)
  throttle : ThrottleState
deriving DecidableEq, Repr

/-- Engine state together with the condition-state store's `triggered`
field (the one external store the engine both reads and writes). -/
structure Sys where
  engine : TriggersState
  cond : Option (Finset String)
deriving DecidableEq

/-- Freshly constructed manager: both maps empty, throttle idle, nothing
published to the condition store. -/
def initSys : Sys :=
  { engine := { triggeredCameras := [], triggeredCameraTimers := [],
                throttle := initThrottle },
    cond := none }

/-- JavaScript `Map.set`: update an existing key in place (keeping its
insertion position), append a new key. -/
def mapSet (m : List (String × Nat)) (k : String) (v : Nat) :
    List (String × Nat) :=
  if m.any (fun e => e.1 == k) then
    m.map (fun e => if e.1 == k then (k, v) else e)
  else
    m ++ [(k, v)]

namespace TriggersManager

/-- Source `getTriggeredCameraIDs`: `new Set(this._triggeredCameras.keys())`. -/
def getTriggeredCameraIDs (s : TriggersState) : Finset String :=
  (s.triggeredCameras.map (·.1)).toFinset

/-- Source `isTriggered`: `!!this._triggeredCameras.size`. -/
def isTriggered (s : TriggersState) : Bool :=
  s.triggeredCameras.length != 0

/-- lodash `orderBy(entries, (entry) => entry[1].getTime(), 'desc')`:
stable insertion step for descending timestamp order (an element is placed
before the first strictly smaller timestamp, after equal ones processed
later in `orderByTimeDesc`'s fold, which preserves original order of ties). -/
def orderedInsertDesc (x : String × Nat) :
    List (String × Nat) → List (String × Nat)
  | [] => [x]
  | y :: ys => if y.2 ≤ x.2 then x :: y :: ys else y :: orderedInsertDesc x ys

/-- Stable descending sort by timestamp (lodash `orderBy _ 'desc'`). -/
def orderByTimeDesc (l : List (String × Nat)) : List (String × Nat) :=
  l.foldr orderedInsertDesc []

/-- Source `getMostRecentlyTriggeredCameraID`: head of the entries sorted by
timestamp descending, `null` when empty. -/
def getMostRecentlyTriggeredCameraID (s : TriggersState) : Option String :=
  (orderByTimeDesc s.triggeredCameras).head?.map (·.1)

/-- Source `_hasAllowableInteractionStateForAction`. -/
def hasAllowableInteractionStateForAction (env : Env) : Bool :=
  match env.config with
  | none => false
  | some cfg =>
      let mode := cfg.view.triggers.actions.interaction_mode
      mode == "all" || (mode == "active" && env.hasInteraction) ||
        (mode == "inactive" && !env.hasInteraction)

/-- The early-`return` guard of `_triggerAction`: a high-fidelity event with
no new media is suppressed unless the configured action is a switch to live. -/
def triggerActionSuppressed (env : Env) (ev : CameraEvent) : Bool :=
  let trigAct := env.config.map (fun c => c.view.triggers.actions.trigger)
  let defaultView := env.config.map (fun c => c.view.default)
  ev.fidelity == "high" && !ev.snapshot && !ev.clip &&
    !(trigAct == some "live" ||
      (trigAct == some "default" && defaultView == some "live"))

/-- Source `_triggerAction` (the function wrapped by the throttle): pure of engine
state; returns the commanded effects.  The suppression guard returns before
the card-element update at the end. -/
def triggerAction (env : Env) (ev : CameraEvent) : List Effect :=
  let trigAct := env.config.map (fun c => c.view.triggers.actions.trigger)
  if triggerActionSuppressed env ev then
    []
  else
    (if hasAllowableInteractionStateForAction env then
      if trigAct == some "live" then
        [Effect.setViewByParameters "live" ev.cameraID]
      else if trigAct == some "default" then
        [Effect.setViewDefault (some ev.cameraID)]
      else if ev.fidelity == "high" && trigAct == some "media" then
        [Effect.setViewByParameters (if ev.clip then "clip" else "snapshot")
          ev.cameraID]
      else []
    else []) ++ [Effect.cardUpdate]

/-- The value `_setConditionStateIfNecessary` wants published for a given
triggered map: `triggeredCameraIDs.size ? triggeredCameraIDs : undefined`. -/
def condValue (trig : List (String × Nat)) : Option (Finset String) :=
  let triggeredCameraIDs := (trig.map (·.1)).toFinset
  if triggeredCameraIDs.card ≠ 0 then some triggeredCameraIDs else none

/-- Source `_setConditionStateIfNecessary`: publish the key set (or `undefined`
when empty) unless it is `isEqual` to the currently published value. -/
def setConditionStateIfNecessary (trig : List (String × Nat))
    (cond : Option (Finset String)) : Option (Finset String) × List Effect :=
  let triggeredState := condValue trig
  if triggeredState ≠ cond then
    (triggeredState, [Effect.setConditionState triggeredState])
  else
    (cond, [])

/-- Source `_deleteTimer`: stop the camera's timer (if any) and drop its entry. -/
def deleteTimer (timers : List (String × Nat)) (cameraID : String) :
    List (String × Nat) :=
  timers.filter (fun e => e.1 ≠ cameraID)

/-- Source `_startUntriggerTimer` at time `t`: delete any existing timer, then
install a fresh one expiring after `untrigger_seconds ?? 0` seconds. -/
def startUntriggerTimer (env : Env) (t : Nat) (cameraID : String)
    (s : TriggersState) : TriggersState :=
  let timers := deleteTimer s.triggeredCameraTimers cameraID
  let seconds := match env.config with
    | some cfg => cfg.view.triggers.untrigger_seconds
    | none => 0
  { s with triggeredCameraTimers := timers ++ [(cameraID, t + 1000 * seconds)] }

/-- Source `_untriggerAction` (the untrigger timer's callback). -/
def untriggerAction (env : Env) (cameraID : String) (sys : Sys) :
    Sys × List Effect :=
  let action := env.config.map (fun c => c.view.triggers.actions.untrigger)
  let navEffects :=
    if action == some "default" && hasAllowableInteractionStateForAction env then
      [Effect.setViewDefault none]
    else []
  let trig := sys.engine.triggeredCameras.filter (fun e => e.1 ≠ cameraID)
  let timers := deleteTimer sys.engine.triggeredCameraTimers cameraID
  let condStep := setConditionStateIfNecessary trig sys.cond
  let engine1 :=
    { sys.engine with triggeredCameras := trig, triggeredCameraTimers := timers }
  ({ engine := engine1, cond := condStep.1 },
   navEffects ++ condStep.2 ++ [Effect.cardUpdate])

/-- Source `handleCameraEvent` at time `t`.  Leading-edge throttle invocations of
`_triggerAction` run synchronously inside the call and read the same
environment snapshot. -/
def handleCameraEvent (env : Env) (t : Nat) (ev : CameraEvent) (sys : Sys) :
    Sys × List Effect :=
  let triggersConfig := env.config.map (fun c => c.view.triggers)
  let selectedCameraID := env.viewCamera
  match triggersConfig, selectedCameraID with
  | some tc, some sel =>
      if sel = "" then (sys, [])  -- `!selectedCameraID` (empty string is falsy)
      else
        let dependentCameraIDs := env.dependentCameras sel
        if tc.filter_selected_camera && !(dependentCameraIDs.contains ev.cameraID) then
          (sys, [])
        else if ev.type == "end" then
          ({ sys with engine := startUntriggerTimer env t ev.cameraID sys.engine }, [])
        else
          let trig := mapSet sys.engine.triggeredCameras ev.cameraID t
          let condStep := setConditionStateIfNecessary trig sys.cond
          let thr := throttleCall sys.engine.throttle t ev
          let actEffects := thr.2.flatMap (fun inv => triggerAction env inv.2)
          let engine1 :=
            { sys.engine with triggeredCameras := trig, throttle := thr.1 }
          ({ engine := engine1, cond := condStep.1 }, condStep.2 ++ actEffects)
  | _, _ => (sys, [])

/-- Modelled from the spec: the `Timer` utility (`src/utils/timer`, not in
the sources) is a single-shot cancellable countdown — `start(seconds, fn)`
schedules `fn` once after `seconds`, `stop()` cancels.  An untrigger timer
firing at time `t` therefore requires its entry in the map with exactly
this expiry (the source stops every timer before dropping its entry, so a
removed timer can never fire), and firing runs `_untriggerAction`. -/
def fireUntrigger (env : Env) (cameraID : String) (t : Nat) (sys : Sys) :
    Sys × List Effect :=
  if sys.engine.triggeredCameraTimers.contains (cameraID, t) then
    untriggerAction env cameraID sys
  else
    (sys, [])

/-- The throttle's pending timer expiring at time `t`; trailing-edge
invocations of `_triggerAction` read the environment at fire time. -/
def throttleTick (env : Env) (t : Nat) (sys : Sys) : Sys × List Effect :=
  match sys.engine.throttle.timerId with
  | some expiry =>
      if expiry = t then
        let thr := throttleTimerExpired sys.engine.throttle t
        let actEffects := thr.2.flatMap (fun inv => triggerAction env inv.2)
        ({ sys with engine := { sys.engine with throttle := thr.1 } }, actEffects)
      else (sys, [])
  | none => (sys, [])

/-- The operations that can act on a `TriggersManager` instance over its
lifetime: an incoming camera event, an untrigger timer firing, and the
throttle's window timer expiring.  Each carries the environment snapshot
read at that moment. -/
inductive Op where
  | event (env : Env) (t : Nat) (ev : CameraEvent)
  | fire (env : Env) (cameraID : String) (t : Nat)
  | tick (env : Env) (t : Nat)

/-- One operation step. -/
def step (sys : Sys) : Op → Sys × List Effect
  | Op.event env t ev => handleCameraEvent env t ev sys
  | Op.fire env cameraID t => fireUntrigger env cameraID t sys
  | Op.tick env t => throttleTick env t sys

/-- Run a sequence of operations, accumulating the effect trace. -/
def runFrom (sys : Sys) : List Op → Sys × List Effect
  | [] => (sys, [])
  | op :: rest =>
      let s1 := step sys op
      let s2 := runFrom s1.1 rest
      (s2.1, s1.2 ++ s2.2)

/-- Whether an effect is a condition-state write. -/
def isCondWrite : Effect → Bool
  | Effect.setConditionState _ => true
  | _ => false

/-- A condition-state write is well-formed when its payload is either the
cleared value or a non-empty set; every other effect is trivially fine. -/
def condWriteOk : Effect → Bool
  | Effect.setConditionState none => true
  | Effect.setConditionState (some s) => s.card != 0
  | _ => true

/-- State of the throttle after a burst of non-invoking calls: only
`lastArgs` and `lastCallTime` move, to the last call of the burst. -/
def windowFinalState (st : ThrottleState) (calls : List (Nat × CameraEvent)) :
    ThrottleState :=
  match calls.getLast? with
  | some c => { st with lastArgs := some c.2, lastCallTime := some c.1 }
  | none => st

end TriggersManager

end FrigateCard

namespace FrigateCard
namespace TriggersManager

-- Concrete fixtures used by counterexamples and witnesses.

/-- Trigger actions: `trigger: live`, `untrigger: default`, `interaction_mode: all`. -/
def actsLive : TriggerActions :=
  { trigger := "live", untrigger := "default", interaction_mode := "all" }

/-- Policy with `filter_selected_camera: false` and `untrigger_seconds: 10`. -/
def tcfgLive : TriggersConfig :=
  { filter_selected_camera := false, untrigger_seconds := 10, actions := actsLive }

/-- Card configuration with the live trigger policy and default view `live`. -/
def cfgLive : CardConfig := { view := { triggers := tcfgLive, default := "live" } }

/-- Environment: live policy, camera `cam` selected, `cam` its own dependent. -/
def envLive : Env :=
  { config := some cfgLive, viewCamera := some "cam",
    dependentCameras := fun _ => ["cam"], hasInteraction := false }

/-- An `end`-type event for camera `cam`. -/
def evEnd : CameraEvent :=
  { cameraID := "cam", type := "end", fidelity := "high", clip := false,
    snapshot := false }

/-- A start-type (non-`end`) low-fidelity event for camera `cam`. -/
def evStart : CameraEvent :=
  { cameraID := "cam", type := "new", fidelity := "low", clip := false,
    snapshot := false }

/-- A start-type low-fidelity event for camera `a`. -/
def evA : CameraEvent :=
  { cameraID := "a", type := "new", fidelity := "low", clip := false,
    snapshot := false }

/-- A start-type low-fidelity event for camera `b`. -/
def evB : CameraEvent :=
  { cameraID := "b", type := "new", fidelity := "low", clip := false,
    snapshot := false }

/-- Environment: live policy, camera `a` selected, dependents `{a, b}`. -/
def envLiveAB : Env :=
  { config := some cfgLive, viewCamera := some "a",
    dependentCameras := fun _ => ["a", "b"], hasInteraction := false }

/-- Trigger actions: `trigger: media`, `untrigger: none`, `interaction_mode: all`. -/
def actsMedia : TriggerActions :=
  { trigger := "media", untrigger := "none", interaction_mode := "all" }

/-- Card configuration: media trigger policy, non-live default view `clips`. -/
def cfgMedia : CardConfig :=
  { view := { triggers := { filter_selected_camera := false, untrigger_seconds := 10, actions := actsMedia }, default := "clips" } }

/-- Environment for the media policy. -/
def envMedia : Env :=
  { config := some cfgMedia, viewCamera := some "a",
    dependentCameras := fun _ => ["a"], hasInteraction := false }

/-- A high-fidelity event for camera `a` carrying no snapshot and no clip. -/
def evHighNoMedia : CameraEvent :=
  { cameraID := "a", type := "new", fidelity := "high", clip := false,
    snapshot := false }

/-- Trigger actions: `trigger: default`, `untrigger: none`, `interaction_mode: all`. -/
def actsDefault : TriggerActions :=
  { trigger := "default", untrigger := "none", interaction_mode := "all" }

/-- Card configuration: default-view trigger policy, non-live default `clips`. -/
def cfgDefault : CardConfig :=
  { view := { triggers := { filter_selected_camera := false, untrigger_seconds := 10, actions := actsDefault }, default := "clips" } }

/-- Environment for the default-view policy. -/
def envDefault : Env :=
  { config := some cfgDefault, viewCamera := some "a",
    dependentCameras := fun _ => ["a"], hasInteraction := false }

/-- Environment with no card configuration available. -/
def envNoConfig : Env :=
  { config := none, viewCamera := some "cam",
    dependentCameras := fun _ => [], hasInteraction := false }

-- C5

/-- C5: if the trigger policy is absent, or the selected camera is absent,
or `filter_selected_camera` is set and the event's camera is not in the
dependent set of the selected camera, `handleCameraEvent` returns with the
engine state and condition store unchanged and an empty effect trace (no
timer, no write, no navigation, no refresh), and no error is possible. -/
theorem C5_guard_silent_noop (env : Env) (t : Nat) (ev : CameraEvent) (sys : Sys)
    (h : env.config = none ∨ env.viewCamera = none ∨
      ∃ cfg sel, env.config = some cfg ∧ env.viewCamera = some sel ∧
        cfg.view.triggers.filter_selected_camera = true ∧
        ev.cameraID ∉ env.dependentCameras sel) :
    handleCameraEvent env t ev sys = (sys, []) := by
  unfold handleCameraEvent
  rcases h with h | h | ⟨cfg, sel, hc, hv, hf, hd⟩
  · simp [h]
  · cases hc : env.config <;> simp [h, hc]
  · have hd' : ((env.dependentCameras sel).contains ev.cameraID) = false := by
      simpa using hd
    by_cases hsel : sel = ""
    · simp [hc, hv, hf, hd', hsel]
    · simp [hc, hv, hf, hd', hsel]
      exact fun hmem => absurd hmem hd

/-- Witness for C5 at a concrete input (no configuration available). -/
theorem C5_guard_silent_noop_witness :
    handleCameraEvent envNoConfig 0 evStart initSys = (initSys, []) :=
  C5_guard_silent_noop envNoConfig 0 evStart initSys (Or.inl rfl)

-- C9

/-- Head of the stable descending sort: a member with maximal timestamp. -/
theorem orderByTimeDesc_head (l : List (String × Nat)) (hne : l ≠ []) :
    ∃ h t, orderByTimeDesc l = h :: t ∧ h ∈ l ∧ ∀ p ∈ l, p.2 ≤ h.2 := by
  induction l with
  | nil => exact absurd rfl hne
  | cons a l' ih =>
      by_cases hl' : l' = []
      · subst hl'
        exact ⟨a, [], rfl, List.mem_singleton.mpr rfl, by
          intro p hp; rw [List.mem_singleton.mp hp]⟩
      · obtain ⟨h, t, hsort, hmem, hmax⟩ := ih hl'
        have hstep : orderByTimeDesc (a :: l') = orderedInsertDesc a (h :: t) := by
          simp [orderByTimeDesc] at hsort ⊢
          rw [hsort]
        by_cases hcmp : h.2 ≤ a.2
        · refine ⟨a, h :: t, ?_, List.mem_cons_self a l', ?_⟩
          · rw [hstep]; simp [orderedInsertDesc, hcmp]
          · intro p hp
            rcases List.mem_cons.mp hp with hp | hp
            · rw [hp]
            · exact le_trans (hmax p hp) hcmp
        · refine ⟨h, orderedInsertDesc a t, ?_, List.mem_cons_of_mem a hmem, ?_⟩
          · rw [hstep]; simp [orderedInsertDesc, hcmp]
          · intro p hp
            rcases List.mem_cons.mp hp with hp | hp
            · rw [hp]; exact le_of_lt (lt_of_not_le hcmp)
            · exact hmax p hp

/-- C9: `getMostRecentlyTriggeredCameraID` is a pure read returning `null`
exactly when the triggered set is empty, and otherwise a camera whose
recorded timestamp is maximal among all entries (the head of the stable
descending sort). -/
theorem C9_most_recent (s : TriggersState) :
    (getMostRecentlyTriggeredCameraID s = none ↔ s.triggeredCameras = []) ∧
    (∀ c, getMostRecentlyTriggeredCameraID s = some c →
      ∃ ts, (c, ts) ∈ s.triggeredCameras ∧
        ∀ p ∈ s.triggeredCameras, p.2 ≤ ts) := by
  constructor
  · constructor
    · intro hnone
      by_contra hne
      obtain ⟨h, t, hsort, -, -⟩ := orderByTimeDesc_head s.triggeredCameras hne
      simp [getMostRecentlyTriggeredCameraID, hsort] at hnone
    · intro hempty
      simp [getMostRecentlyTriggeredCameraID, orderByTimeDesc, hempty]
  · intro c hc
    have hne : s.triggeredCameras ≠ [] := by
      intro hempty
      simp [getMostRecentlyTriggeredCameraID, orderByTimeDesc, hempty] at hc
    obtain ⟨h, t, hsort, hmem, hmax⟩ := orderByTimeDesc_head s.triggeredCameras hne
    simp [getMostRecentlyTriggeredCameraID, hsort] at hc
    refine ⟨h.2, ?_, hmax⟩
    rw [← hc, Prod.mk.eta]
    exact hmem

/-- A concrete engine state with a timestamp tie between `b` and `c`. -/
def tieState : TriggersState :=
  { triggeredCameras := [("a", 5), ("b", 7), ("c", 7)],
    triggeredCameraTimers := [], throttle := initThrottle }

/-- Witness for C9 at a concrete state with a timestamp tie. -/
theorem C9_most_recent_witness :
    ∃ ts, ("b", ts) ∈ tieState.triggeredCameras ∧
      ∀ p ∈ tieState.triggeredCameras, p.2 ≤ ts :=
  (C9_most_recent tieState).2 "b" (by decide)

end TriggersManager
end FrigateCard

namespace FrigateCard
namespace TriggersManager

-- C3

/-- C3 counterexample: a low-fidelity event under a `trigger: default`
policy with a non-live configured default view (`clips`) makes the dispatch
issue a navigation command to the (non-live) default view. -/
theorem C3_counterexample :
    evA.fidelity = "low" ∧ cfgDefault.view.default ≠ "live" ∧
    triggerAction envDefault evA
      = [Effect.setViewDefault (some "a"), Effect.cardUpdate] := by
  refine ⟨rfl, by decide, by decide⟩

/-- C3 amended: a low-fidelity event never causes a parametrised navigation
to a non-live view (the `media` clip/snapshot path requires high fidelity),
but it may still cause a `setViewDefault` navigation to the configured
default view even when that default is not live. -/
theorem C3_amended (env : Env) (ev : CameraEvent) (hf : ev.fidelity = "low")
    (v c : String)
    (hmem : Effect.setViewByParameters v c ∈ triggerAction env ev) :
    v = "live" := by
  have hhigh : (ev.fidelity == "high") = false := by
    simp [hf]
  unfold triggerAction triggerActionSuppressed at hmem
  simp only [hhigh, Bool.false_and, Bool.if_false_left] at hmem
  by_cases hgate : hasAllowableInteractionStateForAction env
  · simp only [hgate, if_true] at hmem
    rcases htrig : env.config.map (fun c => c.view.triggers.actions.trigger) with _ | act
    · simp [htrig] at hmem
    · by_cases hlive : act = "live"
      · subst hlive
        simp [htrig] at hmem
        exact hmem.1
      · by_cases hdef : act = "default"
        · subst hdef
          simp [htrig] at hmem
        · simp [htrig, hlive, hdef, hhigh] at hmem
  · simp [hgate] at hmem

/-- Witness for C3 amended at a concrete input (live policy, low fidelity). -/
theorem C3_amended_witness : ("live" : String) = "live" :=
  C3_amended envLiveAB evA rfl "live" "a" (by decide)

-- C4

/-- C4 counterexample: a high-fidelity event with no snapshot and no clip
under a non-live trigger action (`media`) is suppressed by the early return
and the dispatch requests no UI refresh at all (empty effect list), even
though the interaction mode is `all`. -/
theorem C4_counterexample :
    evHighNoMedia.fidelity = "high" ∧ evHighNoMedia.snapshot = false ∧
    evHighNoMedia.clip = false ∧
    cfgMedia.view.triggers.actions.interaction_mode = "all" ∧
    triggerAction envMedia evHighNoMedia = [] := by
  refine ⟨rfl, rfl, rfl, rfl, by decide⟩

/-- C4 amended: every non-suppressed execution of the dispatch ends with a
UI-refresh request (in particular when the interaction-mode gate denies the
action, where the refresh is the only effect); a suppressed execution
(high-fidelity event with no media whose action is not a switch to live)
requests nothing, including no refresh. -/
theorem C4_amended (env : Env) (ev : CameraEvent)
    (h : triggerActionSuppressed env ev = false) :
    (triggerAction env ev).getLast? = some Effect.cardUpdate ∧
    (hasAllowableInteractionStateForAction env = false →
      triggerAction env ev = [Effect.cardUpdate]) := by
  unfold triggerAction
  simp only [h, if_false]
  constructor
  · exact List.getLast?_concat _
  · intro hgate
    simp [hgate]

/-- Environment whose gate denies (interaction mode `active`, no interaction). -/
def envInactiveGate : Env :=
  { config := some { view := { triggers := { filter_selected_camera := false, untrigger_seconds := 10, actions := { trigger := "live", untrigger := "none", interaction_mode := "active" } }, default := "clips" } }, viewCamera := some "a",
    dependentCameras := fun _ => ["a"], hasInteraction := false }

/-- Witness for C4 amended: gate-denied (interaction mode `active`, no
interaction), non-suppressed event. -/
theorem C4_amended_witness :
    (triggerAction envInactiveGate evA).getLast? = some Effect.cardUpdate ∧
    (hasAllowableInteractionStateForAction envInactiveGate = false →
      triggerAction envInactiveGate evA = [Effect.cardUpdate]) :=
  C4_amended envInactiveGate evA (by decide)

-- C6

/-- C6: when a camera's untrigger timer elapses, the default-view navigation
(no camera argument) happens exactly when the policy's `actions.untrigger`
is `default` and the interaction gate permits; and in every case the camera
is removed from the triggered set, its timer entry is removed, the condition
state is republished exactly when it changed, and a UI refresh is requested. -/
theorem C6_untrigger_action (env : Env) (c : String) (sys : Sys) :
    (Effect.setViewDefault none ∈ (untriggerAction env c sys).2 ↔
      (env.config.map (fun cf => cf.view.triggers.actions.untrigger)
          = some "default" ∧
        hasAllowableInteractionStateForAction env = true)) ∧
    (untriggerAction env c sys).1.engine.triggeredCameras
      = sys.engine.triggeredCameras.filter (fun e => e.1 ≠ c) ∧
    (untriggerAction env c sys).1.engine.triggeredCameraTimers
      = sys.engine.triggeredCameraTimers.filter (fun e => e.1 ≠ c) ∧
    (∀ p, Effect.setConditionState p ∈ (untriggerAction env c sys).2 ↔
      (p = condValue (sys.engine.triggeredCameras.filter (fun e => e.1 ≠ c)) ∧
        p ≠ sys.cond)) ∧
    Effect.cardUpdate ∈ (untriggerAction env c sys).2 := by
  unfold untriggerAction setConditionStateIfNecessary deleteTimer
  by_cases hnav : (env.config.map (fun cf => cf.view.triggers.actions.untrigger)
      == some "default") && hasAllowableInteractionStateForAction env
  · by_cases hchange :
        condValue (sys.engine.triggeredCameras.filter (fun e => e.1 ≠ c)) = sys.cond
    · simp_all
    · simp_all
  · by_cases hchange :
        condValue (sys.engine.triggeredCameras.filter (fun e => e.1 ≠ c)) = sys.cond
    · simp_all
    · simp_all

-- C10

/-- Every condition-state write produced by `_setConditionStateIfNecessary`
carries the cleared value or a non-empty set. -/
theorem setConditionStateIfNecessary_condWriteOk (trig : List (String × Nat))
    (cond : Option (Finset String)) :
    ((setConditionStateIfNecessary trig cond).2.all condWriteOk) = true := by
  unfold setConditionStateIfNecessary
  by_cases hchange : condValue trig = cond
  · simp [hchange]
  · simp only [ne_eq, hchange, not_false_iff, if_true, List.all_cons, List.all_nil,
      Bool.and_true]
    unfold condValue condWriteOk
    by_cases hcard : ((trig.map (·.1)).toFinset).card = 0
    · simp [hcard]
    · simp [hcard]

/-- Helper: `_triggerAction` issues no condition-state writes. -/
theorem triggerAction_condWriteOk (env : Env) (ev : CameraEvent) :
    ((triggerAction env ev).all condWriteOk) = true := by
  rw [List.all_eq_true]
  intro e he
  unfold triggerAction at he
  split at he
  · simp at he
  · rw [List.mem_append] at he
    rcases he with he | he
    · split at he
      · split at he
        · rw [List.mem_singleton] at he; subst he; rfl
        · split at he
          · rw [List.mem_singleton] at he; subst he; rfl
          · split at he
            · rw [List.mem_singleton] at he; subst he; rfl
            · simp at he
      · simp at he
    · rw [List.mem_singleton] at he; subst he; rfl

/-- One operation step only emits well-formed condition-state writes. -/
theorem step_condWriteOk (sys : Sys) (op : Op) :
    (((step sys op).2).all condWriteOk) = true := by
  cases op with
  | event env t ev =>
      show ((handleCameraEvent env t ev sys).2.all condWriteOk) = true
      unfold handleCameraEvent
      cases henv : env.config with
      | none => simp [henv]
      | some cfg =>
          cases hview : env.viewCamera with
          | none => simp [henv, hview]
          | some sel =>
              simp only [henv, hview, Option.map_some']
              split
              · simp
              · split
                · simp
                · split
                  · simp
                  · rw [List.all_append]
                    refine (Bool.and_eq_true _ _).mpr
                      ⟨setConditionStateIfNecessary_condWriteOk _ _, ?_⟩
                    rw [List.all_eq_true]
                    intro e he
                    obtain ⟨inv, -, hmem⟩ := List.mem_flatMap.mp he
                    exact List.all_eq_true.mp (triggerAction_condWriteOk env inv.2) e hmem
  | fire env c t =>
      show ((fireUntrigger env c t sys).2.all condWriteOk) = true
      unfold fireUntrigger
      split
      · unfold untriggerAction
        rw [List.all_append, List.all_append]
        refine (Bool.and_eq_true _ _).mpr ⟨(Bool.and_eq_true _ _).mpr
          ⟨?_, setConditionStateIfNecessary_condWriteOk _ _⟩, by decide⟩
        split <;> decide
      · simp
  | tick env t =>
      show ((throttleTick env t sys).2.all condWriteOk) = true
      unfold throttleTick
      split
      · split
        · rw [List.all_eq_true]
          intro e he
          obtain ⟨inv, -, hmem⟩ := List.mem_flatMap.mp he
          exact List.all_eq_true.mp (triggerAction_condWriteOk env inv.2) e hmem
        · simp
      · simp

/-- C10: over any sequence of operations on a freshly constructed manager,
every condition-state value the engine publishes is either the cleared
value (`undefined`) or a non-empty set; an empty set is never published. -/
theorem C10_no_empty_publish (ops : List Op) :
    (((runFrom initSys ops).2).all condWriteOk) = true := by
  suffices h : ∀ sys, (((runFrom sys ops).2).all condWriteOk) = true from h initSys
  induction ops with
  | nil => intro sys; simp [runFrom]
  | cons op rest ih =>
      intro sys
      unfold runFrom
      rw [List.all_append]
      exact (Bool.and_eq_true _ _).mpr ⟨step_condWriteOk sys op, ih _⟩

end TriggersManager
end FrigateCard

namespace FrigateCard
namespace TriggersManager

-- C1

/-- C1 counterexample: with `untrigger_seconds = 10`, after an `end` event
at t=0 and a start event at t=5s the camera is triggered, but the pending
untrigger timer is still armed (not cancelled); when it fires at t=10s the
camera is removed from the triggered set despite the intervening start. -/
theorem C1_counterexample :
    ("cam", 5000) ∈ (runFrom initSys [Op.event envLive 0 evEnd,
        Op.event envLive 5000 evStart]).1.engine.triggeredCameras ∧
    (runFrom initSys [Op.event envLive 0 evEnd,
        Op.event envLive 5000 evStart]).1.engine.triggeredCameraTimers
      = [("cam", 10000)] ∧
    (runFrom initSys [Op.event envLive 0 evEnd, Op.event envLive 5000 evStart,
        Op.fire envLive "cam" 10000]).1.engine.triggeredCameras = [] :=
  ⟨by decide, by decide, by decide⟩

/-- C1 amended: a start-type event never touches the per-camera untrigger
timers (the pending timer stays armed), and an armed timer that fires
removes its camera from the triggered set unconditionally, regardless of
intervening start events; only another `end` event would restart the timer. -/
theorem C1_amended :
    (∀ (env : Env) (t : Nat) (ev : CameraEvent) (sys : Sys),
      ev.type ≠ "end" →
      ((handleCameraEvent env t ev sys).1).engine.triggeredCameraTimers
        = sys.engine.triggeredCameraTimers) ∧
    (∀ (env : Env) (c : String) (t : Nat) (sys : Sys),
      sys.engine.triggeredCameraTimers.contains (c, t) = true →
      ∀ p ∈ ((fireUntrigger env c t sys).1).engine.triggeredCameras,
        p.1 ≠ c) := by
  constructor
  · intro env t ev sys hne
    unfold handleCameraEvent
    cases henv : env.config with
    | none => simp [henv]
    | some cfg =>
        cases hview : env.viewCamera with
        | none => simp [henv, hview]
        | some sel =>
            simp only [henv, hview, Option.map_some']
            split
            · rfl
            · split
              · rfl
              · split
                · next hend => exact absurd (by simpa using hend) hne
                · rfl
  · intro env c t sys hcont p hp
    unfold fireUntrigger at hp
    rw [hcont] at hp
    simp only [if_true] at hp
    unfold untriggerAction at hp
    dsimp only at hp
    have := (List.mem_filter.mp hp).2
    simpa using this

/-- A concrete engine state: camera `cam` triggered at t=5s with an armed
untrigger timer expiring at t=10s. -/
def armedEngine : TriggersState :=
  { triggeredCameras := [("cam", 5000)]
    triggeredCameraTimers := [("cam", 10000)]
    throttle := initThrottle }

/-- A concrete system state around `armedEngine`, with `cam` published. -/
def sysArmed : Sys := { engine := armedEngine, cond := some {"cam"} }

/-- Witness for C1 amended at a concrete input. -/
theorem C1_amended_witness :
    ((handleCameraEvent envLive 5000 evStart sysArmed).1).engine.triggeredCameraTimers
      = sysArmed.engine.triggeredCameraTimers ∧
    (∀ p ∈ ((fireUntrigger envLive "cam" 10000 sysArmed).1).engine.triggeredCameras,
      p.1 ≠ "cam") :=
  ⟨C1_amended.1 envLive 5000 evStart sysArmed (by decide),
   C1_amended.2 envLive "cam" 10000 sysArmed (by decide)⟩

-- C7

/-- Helper: `_triggerAction` never issues a condition-state write. -/
theorem triggerAction_not_condWrite (env : Env) (ev : CameraEvent) :
    ∀ e ∈ triggerAction env ev, isCondWrite e = false := by
  intro e he
  unfold triggerAction at he
  split at he
  · simp at he
  · rw [List.mem_append] at he
    rcases he with he | he
    · split at he
      · split at he
        · rw [List.mem_singleton] at he; subst he; rfl
        · split at he
          · rw [List.mem_singleton] at he; subst he; rfl
          · split at he
            · rw [List.mem_singleton] at he; subst he; rfl
            · simp at he
      · simp at he
    · rw [List.mem_singleton] at he; subst he; rfl

/-- C7: each `handleCameraEvent` call emits at most one condition-state
write, and emits none at all when the triggered set resulting from the call
is set-equal to the currently published value — in particular a repeated
start event for an already-triggered camera never writes. -/
theorem C7_condition_writes (env : Env) (t : Nat) (ev : CameraEvent) (sys : Sys) :
    ((handleCameraEvent env t ev sys).2.countP isCondWrite ≤ 1) ∧
    (condValue (mapSet sys.engine.triggeredCameras ev.cameraID t) = sys.cond →
      ∀ p, Effect.setConditionState p ∉ (handleCameraEvent env t ev sys).2) := by
  have hact : ∀ (invs : List (Nat × CameraEvent)),
      (invs.flatMap (fun inv => triggerAction env inv.2)).countP isCondWrite = 0 := by
    intro invs
    rw [List.countP_eq_zero]
    intro e he
    obtain ⟨inv, -, hmem⟩ := List.mem_flatMap.mp he
    simp [triggerAction_not_condWrite env inv.2 e hmem]
  unfold handleCameraEvent
  cases henv : env.config with
  | none => simp
  | some cfg =>
      cases hview : env.viewCamera with
      | none => simp
      | some sel =>
          simp only [Option.map_some']
          split
          · simp
          · split
            · simp
            · split
              · simp
              · constructor
                · rw [List.countP_append, hact]
                  unfold setConditionStateIfNecessary
                  dsimp only
                  split
                  · simp [isCondWrite]
                  · simp
                · intro hsame p hp
                  rw [List.mem_append] at hp
                  rcases hp with hp | hp
                  · unfold setConditionStateIfNecessary at hp
                    simp only [ne_eq, hsame, not_true_eq_false, if_false] at hp
                    simp at hp
                  · obtain ⟨inv, -, hmem⟩ := List.mem_flatMap.mp hp
                    have := triggerAction_not_condWrite env inv.2 _ hmem
                    simp [isCondWrite] at this

/-- A concrete engine state: camera `a` triggered at t=0 and nothing else. -/
def engineTriggeredA : TriggersState :=
  { triggeredCameras := [("a", 0)]
    triggeredCameraTimers := []
    throttle := initThrottle }

/-- A concrete system state: camera `a` triggered and already published. -/
def sysTriggeredA : Sys := { engine := engineTriggeredA, cond := some {"a"} }

/-- Witness for C7: a repeated start event for already-triggered camera `a`
writes nothing to the condition store. -/
theorem C7_condition_writes_witness :
    ((handleCameraEvent envLiveAB 5 evA sysTriggeredA).2.countP isCondWrite ≤ 1) ∧
    Effect.setConditionState (some {"a"})
      ∉ (handleCameraEvent envLiveAB 5 evA sysTriggeredA).2 :=
  ⟨(C7_condition_writes envLiveAB 5 evA sysTriggeredA).1,
   (C7_condition_writes envLiveAB 5 evA sysTriggeredA).2 (by decide) (some {"a"})⟩

-- C8

/-- Deleting a camera's timer and appending a fresh entry for it preserves
distinctness of the timer map's keys. -/
theorem deleteTimer_insert_nodup (l : List (String × Nat)) (c : String) (x : Nat)
    (h : (l.map Prod.fst).Nodup) :
    (((deleteTimer l c) ++ [(c, x)]).map Prod.fst).Nodup := by
  rw [List.map_append, List.nodup_append]
  refine ⟨?_, List.nodup_singleton _, ?_⟩
  · exact List.Nodup.sublist (List.Sublist.map _ (List.filter_sublist l)) h
  · intro a ha hb
    simp only [List.map_cons, List.map_nil, List.mem_singleton] at hb
    obtain ⟨p, hp, hpa⟩ := List.mem_map.mp ha
    have := (List.mem_filter.mp hp).2
    rw [hpa] at this
    simp [hb] at this

/-- Every operation preserves distinctness of the timer map's keys. -/
theorem step_timers_nodup (sys : Sys) (op : Op)
    (h : (sys.engine.triggeredCameraTimers.map Prod.fst).Nodup) :
    ((((step sys op).1).engine.triggeredCameraTimers).map Prod.fst).Nodup := by
  cases op with
  | event env t ev =>
      show ((((handleCameraEvent env t ev sys).1).engine.triggeredCameraTimers).map
        Prod.fst).Nodup
      unfold handleCameraEvent
      cases henv : env.config with
      | none => simpa using h
      | some cfg =>
          cases hview : env.viewCamera with
          | none => simpa using h
          | some sel =>
              simp only [Option.map_some']
              split
              · exact h
              · split
                · exact h
                · split
                  · unfold startUntriggerTimer
                    simp only [henv]
                    exact deleteTimer_insert_nodup _ _ _ h
                  · exact h
  | fire env c t =>
      show ((((fireUntrigger env c t sys).1).engine.triggeredCameraTimers).map
        Prod.fst).Nodup
      unfold fireUntrigger
      split
      · unfold untriggerAction deleteTimer
        simp only
        exact List.Nodup.sublist (List.Sublist.map _ (List.filter_sublist _)) h
      · exact h
  | tick env t =>
      show ((((throttleTick env t sys).1).engine.triggeredCameraTimers).map
        Prod.fst).Nodup
      unfold throttleTick
      split
      · split
        · exact h
        · exact h
      · exact h

/-- Distinctness of timer keys holds along any run from the initial state. -/
theorem runFrom_timers_nodup (ops : List Op) :
    ∀ sys : Sys, (sys.engine.triggeredCameraTimers.map Prod.fst).Nodup →
      ((((runFrom sys ops).1).engine.triggeredCameraTimers).map Prod.fst).Nodup := by
  induction ops with
  | nil => intro sys h; exact h
  | cons op rest ih =>
      intro sys h
      unfold runFrom
      exact ih _ (step_timers_nodup sys op h)

/-- C8: at every point of any operation sequence each camera has at most
one untrigger timer, and an `end` event that passes the guards replaces
that camera's timer by remove-then-insert (fresh entry for
`untrigger_seconds`, appended at the end) while leaving the triggered set
and the condition store untouched and emitting no effect. -/
theorem C8_timer_invariant :
    (∀ ops : List Op,
      ((((runFrom initSys ops).1).engine.triggeredCameraTimers).map Prod.fst).Nodup) ∧
    (∀ (env : Env) (t : Nat) (ev : CameraEvent) (sys : Sys) (cfg : CardConfig)
      (sel : String),
      env.config = some cfg → env.viewCamera = some sel → sel ≠ "" →
      (cfg.view.triggers.filter_selected_camera = true →
        ev.cameraID ∈ env.dependentCameras sel) →
      ev.type = "end" →
      ((handleCameraEvent env t ev sys).1).engine.triggeredCameraTimers
        = deleteTimer sys.engine.triggeredCameraTimers ev.cameraID
            ++ [(ev.cameraID, t + 1000 * cfg.view.triggers.untrigger_seconds)] ∧
      ((handleCameraEvent env t ev sys).1).engine.triggeredCameras
        = sys.engine.triggeredCameras ∧
      ((handleCameraEvent env t ev sys).1).cond = sys.cond ∧
      (handleCameraEvent env t ev sys).2 = []) := by
  constructor
  · intro ops
    exact runFrom_timers_nodup ops initSys (by simp [initSys])
  · intro env t ev sys cfg sel hc hv hsel hfilter hend
    have hcond : ¬(cfg.view.triggers.filter_selected_camera = true ∧
        ev.cameraID ∉ env.dependentCameras sel) := by
      rintro ⟨hf, hnotmem⟩
      exact hnotmem (hfilter hf)
    unfold handleCameraEvent startUntriggerTimer
    simp [hc, hv, hsel, hcond, hend]

/-- Witness for C8 at a concrete input (end event for `cam` at t=0 under
the live policy with `untrigger_seconds = 10`). -/
theorem C8_timer_invariant_witness :
    ((handleCameraEvent envLive 0 evEnd sysArmed).1).engine.triggeredCameraTimers
      = deleteTimer sysArmed.engine.triggeredCameraTimers "cam" ++ [("cam", 10000)] ∧
    ((handleCameraEvent envLive 0 evEnd sysArmed).1).engine.triggeredCameras
      = sysArmed.engine.triggeredCameras ∧
    ((handleCameraEvent envLive 0 evEnd sysArmed).1).cond = sysArmed.cond ∧
    (handleCameraEvent envLive 0 evEnd sysArmed).2 = [] :=
  C8_timer_invariant.2 envLive 0 evEnd sysArmed cfgLive "cam" rfl rfl
    (by decide) (by decide) rfl

end TriggersManager
end FrigateCard

namespace FrigateCard
namespace TriggersManager

-- C2

/-- The member designated by `getLast?`. -/
theorem mem_of_getLast?_eq_some {α : Type} {l : List α} {a : α}
    (h : l.getLast? = some a) : a ∈ l := by
  obtain ⟨hne, heq⟩ := List.mem_getLast?_eq_getLast (Option.mem_def.mpr h)
  rw [heq]
  exact List.getLast_mem hne

/-- Updating only `lastArgs`/`lastCallTime` before a non-empty burst does
not change the burst's final throttle state. -/
theorem windowFinalState_update (st : ThrottleState) (x : Option CameraEvent)
    (y : Option Nat) (calls : List (Nat × CameraEvent)) (h : calls ≠ []) :
    windowFinalState { st with lastArgs := x, lastCallTime := y } calls
      = windowFinalState st calls := by
  unfold windowFinalState
  cases hl : calls.getLast? with
  | none => exact absurd (List.getLast?_eq_none_iff.mp hl) h
  | some c => rfl

/-- Calls that stay strictly inside the current throttle window never
invoke the wrapped function: they only move `lastArgs` and `lastCallTime`
to the latest call. -/
theorem throttleRun_within (t1 : Nat) (calls : List (Nat × CameraEvent)) :
    ∀ (st : ThrottleState) (lc T : Nat),
      st.lastInvokeTime = t1 → st.timerId = some T →
      st.lastCallTime = some lc → t1 ≤ lc →
      (∀ p ∈ calls, t1 ≤ p.1 ∧ p.1 < t1 + throttleWait) →
      throttleRun st calls = (windowFinalState st calls, []) := by
  induction calls with
  | nil =>
      intro st lc T hinv htimer hlast hlc hin
      simp [throttleRun, windowFinalState]
  | cons c rest ih =>
      intro st lc T hinv htimer hlast hlc hin
      obtain ⟨hc1, hc2⟩ := hin c (List.mem_cons_self _ _)
      have hni : shouldInvoke st c.1 = false := by
        unfold shouldInvoke
        rw [hlast, hinv]
        simp only [Bool.or_eq_false_iff, decide_eq_false_iff_not, Nat.not_le]
        omega
      have hcall : throttleCall st c.1 c.2
          = ({ st with lastArgs := some c.2, lastCallTime := some c.1 }, []) := by
        unfold throttleCall
        rw [hni]
        simp only [Bool.false_eq_true, if_false]
        rw [if_neg (by simp [htimer])]
      show (let s1 := throttleCall st c.1 c.2
            let s2 := throttleRun s1.1 rest
            (s2.1, s1.2 ++ s2.2)) = (windowFinalState st (c :: rest), [])
      rw [hcall]
      dsimp only
      rw [ih { st with lastArgs := some c.2, lastCallTime := some c.1 } c.1 T
        hinv htimer rfl hc1 (fun p hp => hin p (List.mem_cons_of_mem c hp))]
      cases hrest : rest with
      | nil => simp [windowFinalState]
      | cons r rest' =>
          rw [windowFinalState_update st (some c.2) (some c.1) (r :: rest') (by simp)]
          simp only [List.nil_append]
          unfold windowFinalState
          rw [List.getLast?_cons_cons]

/-- The throttle state left behind by a leading-edge invocation at `t1`. -/
def leadState (t1 : Nat) : ThrottleState :=
  { lastCallTime := some t1, lastInvokeTime := t1, lastArgs := none,
    timerId := some (t1 + throttleWait) }

/-- C2 amended: within one rolling 1-second window, the first qualifying
event's action is invoked immediately at the leading edge with that event's
parameters (lodash `throttle` keeps `leading: true` by default); the later
events of the window invoke nothing at call time; and when the window timer
expires, exactly one trailing invocation runs with the last event's
parameters (none if the window had a single event).  So a window can see up
to two executions, and the first event's action is executed rather than
superseded. -/
theorem C2_amended (t1 : Nat) (e1 : CameraEvent)
    (rest : List (Nat × CameraEvent))
    (hin : ∀ p ∈ rest, t1 ≤ p.1 ∧ p.1 < t1 + throttleWait) :
    (throttleRun initThrottle ((t1, e1) :: rest)).2 = [(t1, e1)] ∧
    (throttleTimerExpired (throttleRun initThrottle ((t1, e1) :: rest)).1
        (t1 + throttleWait)).2
      = rest.getLast?.elim [] (fun c => [(t1 + throttleWait, c.2)]) := by
  have hcall : throttleCall initThrottle t1 e1 = (leadState t1, [(t1, e1)]) := rfl
  have hrun : throttleRun initThrottle ((t1, e1) :: rest)
      = (windowFinalState (leadState t1) rest, [(t1, e1)]) := by
    show (let s1 := throttleCall initThrottle t1 e1
          let s2 := throttleRun s1.1 rest
          (s2.1, s1.2 ++ s2.2)) = _
    rw [hcall]
    dsimp only
    rw [throttleRun_within t1 rest (leadState t1) t1 (t1 + throttleWait)
      rfl rfl rfl le_rfl hin]
    simp
  rw [hrun]
  refine ⟨rfl, ?_⟩
  cases hrest : rest with
  | nil =>
      have hfin : windowFinalState (leadState t1) [] = leadState t1 := rfl
      rw [hfin]
      unfold throttleTimerExpired shouldInvoke leadState
      simp only [Option.elim_none]
      rw [if_pos (by simp)]
      rfl
  | cons r rest' =>
      cases hl : (r :: rest').getLast? with
      | none => exact absurd (List.getLast?_eq_none_iff.mp hl) (by simp)
      | some c =>
          have hfin : windowFinalState (leadState t1) (r :: rest')
              = { leadState t1 with lastArgs := some c.2, lastCallTime := some c.1 } := by
            unfold windowFinalState
            rw [hl]
          rw [hfin]
          obtain ⟨hcl, hcu⟩ := hin c (hrest ▸ mem_of_getLast?_eq_some hl)
          unfold throttleTimerExpired shouldInvoke
          rw [if_pos ?_]
          · simp
          · show (decide (throttleWait ≤ t1 + throttleWait - c.1)
                || decide (throttleWait ≤ t1 + throttleWait - t1)) = true
            have : throttleWait ≤ t1 + throttleWait - t1 := by omega
            simp [this]

/-- Witness for C2 amended: two calls at t=0 and t=500 in one window. -/
theorem C2_amended_witness :
    (throttleRun initThrottle [(0, evA), (500, evB)]).2 = [(0, evA)] ∧
    (throttleTimerExpired (throttleRun initThrottle [(0, evA), (500, evB)]).1
        (0 + throttleWait)).2
      = [(0 + throttleWait, evB)] :=
  C2_amended 0 evA [(500, evB)] (by decide)

/-- C2 counterexample: two qualifying events for cameras `a` and `b` at
t=0 and t=500 produce two action executions — the first at t=0 (leading
edge, with the first event's parameters, navigating to `a`'s live view)
and the second at the end of the window (with the second event's
parameters) — contradicting "at most one execution, at the end of the
window, and earlier events' actions are never executed". -/
theorem C2_counterexample :
    (runFrom initSys [Op.event envLiveAB 0 evA, Op.event envLiveAB 500 evB,
        Op.tick envLiveAB 1000]).2
      = [Effect.setConditionState (some {"a"}),
         Effect.setViewByParameters "live" "a", Effect.cardUpdate,
         Effect.setConditionState (some {"a", "b"}),
         Effect.setViewByParameters "live" "b", Effect.cardUpdate] := by
  decide

end TriggersManager
end FrigateCard
